import Mathlib

/-!
Shallow embedding of the complaint_system repository (Python sources under src/),
together with theorems settling the frozen claims about it.

Text is modelled as `List Char`; floating-point scores and thresholds are
modelled as rationals; fallible calls are modelled with `Option`/`Except` or
explicit outcome parameters.  External collaborators (the HTTP provider, the
sentiment and embedding capabilities, the `re` regular-expression library used
for exclusion patterns, `urllib.parse.quote`, `datetime` parsing) enter the
model as explicit parameters, exactly at the points where the source invokes
them.
-/

namespace ComplaintSys

/-- Character strings are modelled as lists of characters. -/
abbrev Str := List Char

/-- Convert a Lean string literal to the `Str` representation. -/
def str (s : String) : Str := s.data

/-- Python `str.lower()` restricted to the ASCII texts appearing here. -/
def lowerL (s : Str) : Str := s.map Char.toLower

/-- Is the first list a prefix of the second? -/
def isPrefixL : Str → Str → Bool
  | [], _ => true
  | _ :: _, [] => false
  | a :: as, b :: bs => a == b && isPrefixL as bs

/-- Python substring membership `needle in hay` (the empty needle is in everything). -/
def containsSub (needle : Str) : Str → Bool
  | [] => isPrefixL needle []
  | c :: rest => isPrefixL needle (c :: rest) || containsSub needle rest

/-- All character offsets at which `needle` occurs in the scanned suffix,
offsets counted from `i`. -/
def substrPositionsFrom (needle : Str) : Nat → Str → List Nat
  | i, [] => if isPrefixL needle [] then [i] else []
  | i, c :: rest =>
    (if isPrefixL needle (c :: rest) then [i] else []) ++
      substrPositionsFrom needle (i + 1) rest

/-- All character offsets at which `needle` occurs in `hay`. -/
def substrPositions (needle hay : Str) : List Nat := substrPositionsFrom needle 0 hay

/-- Some position of `qs` lies at or after a position of `ps`, at distance ≤ `d`. -/
def followsWithin (ps qs : List Nat) (d : Nat) : Bool :=
  ps.any fun p => qs.any fun q => decide (p ≤ q) && decide (q - p ≤ d)

/-- Some pair of positions from `ps` and `qs` lies within distance `d` (either side). -/
def withinProx (ps qs : List Nat) (d : Nat) : Bool :=
  ps.any fun p => qs.any fun q => decide (max p q - min p q ≤ d)

/-! ### utils.clean_email

`clean_email` (src/utils.py): remove HTML tags with the regular expression
`<[^<]+?>`, collapse whitespace runs to single spaces, strip, lowercase. -/

/-- After the char following `<` has been consumed, look for the closing `>`
before any further `<` (the non-greedy `[^<]+?>` tail). Returns the remainder
after the match. -/
def scanTagGt : Str → Option Str
  | [] => none
  | c :: rest => if c == '>' then some rest else if c == '<' then none else scanTagGt rest

/-- Try to match `[^<]+?>` (at least one non-`<` character, then `>`) at the
head of the input, which is the text following a `<`. -/
def scanTag : Str → Option Str
  | [] => none
  | c :: rest => if c == '<' then none else scanTagGt rest

/-- Left-to-right replacement of every match of `<[^<]+?>` by nothing, as
`re.sub` does.  The fuel argument starts at the length of the text and
dominates the number of characters still to be consumed. -/
def stripTagsF : Nat → Str → Str
  | 0, l => l
  | _ + 1, [] => []
  | fuel + 1, c :: rest =>
    if c == '<' then
      match scanTag rest with
      | some rest2 => stripTagsF fuel rest2
      | none => c :: stripTagsF fuel rest
    else c :: stripTagsF fuel rest

/-- Remove HTML tags, `re.sub('<[^<]+?>', '', s)`. -/
def stripTags (s : Str) : Str := stripTagsF s.length s

/-- The characters matched by Python `\s` on the ASCII range. -/
def isPySpace (c : Char) : Bool :=
  c == ' ' || c == '\t' || c == '\n' || c == '\r' || c == '\x0b' || c == '\x0c'

/-- Replace every maximal whitespace run by a single space,
`re.sub(r'\s+', ' ', s)`.  The flag records whether the previous character
belonged to a run. -/
def collapseWs : Bool → Str → Str
  | _, [] => []
  | prevSpace, c :: rest =>
    if isPySpace c then
      if prevSpace then collapseWs true rest else ' ' :: collapseWs true rest
    else c :: collapseWs false rest

/-- Python `str.strip()`. -/
def stripEnds (s : Str) : Str :=
  ((s.dropWhile isPySpace).reverse.dropWhile isPySpace).reverse

/-- `clean_email` from src/utils.py: strip HTML tags, collapse whitespace,
strip the ends, lowercase. -/
def clean_email (s : Str) : Str :=
  lowerL (stripEnds (collapseWs false (stripTags s)))

/-! ### Configuration snapshot

The fields of the configuration that the modelled code paths read. -/

/-- The `contextual_check` sub-configuration read by `is_complaint`. -/
structure ContextualCheck where
  use_contextual_check : Bool
  contextual_score_threshold : ℚ

/-- The configuration snapshot fields used by `ComplaintProcessor`
(src/complaint_processor.py). -/
structure Config where
  sentiment_threshold : ℚ
  contextual_check : ContextualCheck
  fallback : Bool
  exclusions_from : List Str
  exclusions_subject : List Str
  delete_original : Bool

/-! ### ComplaintProcessor.get_sentiment / is_complaint -/

/-- Outcome of invoking the sentiment capability: either the classifier
returned a score and a label, or the call failed (the pipeline is `None`, or
`self.sentiment_classifier(text)` raised). -/
inductive SentimentCall where
  | ok (score : ℚ) (label : Str)
  | err
deriving DecidableEq

/-- `get_sentiment` (src/complaint_processor.py lines 128-136): return the
capability's result, or `(0.0, "NEUTRAL")` when the capability is missing or
raised. -/
def get_sentiment : SentimentCall → ℚ × Str
  | .ok score label => (score, label)
  | .err => (0, str "NEUTRAL")

/-- Python truthiness of an optional string: `None` and `""` are falsy. -/
def pyTruthy : Option Str → Bool
  | none => false
  | some s => !s.isEmpty

/-- `is_complaint` (src/complaint_processor.py lines 138-160).  The sentiment
capability outcome and the raw contextual score (the value
`get_contextual_score(cleaned_body)` would produce) are passed as parameters;
the contextual score is consulted only when `use_contextual_check` is set,
exactly as in the source. -/
def is_complaint (cfg : Config) (complaint_keywords : List Str)
    (sentiment : SentimentCall) (ctxRaw : ℚ)
    (email_body email_subject : Option Str) : Bool :=
  if !pyTruthy email_body || !pyTruthy email_subject then false
  else
    if (((get_sentiment sentiment).2 == str "NEGATIVE") &&
          decide ((get_sentiment sentiment).1 ≥ cfg.sentiment_threshold)) ||
        decide ((if cfg.contextual_check.use_contextual_check then ctxRaw else 0) ≥
          cfg.contextual_check.contextual_score_threshold) then true
    else if cfg.fallback then
      complaint_keywords.any fun kw =>
        containsSub (lowerL kw) (lowerL (clean_email (email_body.getD [])))
    else false

/-! ### Spec-side decision rule (for the refinement comparison of claim C1)

These definitions follow the wording of the spec (§4.1 steps 5-7), not the
source; they exist only to be compared with `is_complaint`. -/

/-- Number of keywords from `kws` present (case-insensitively) in `text`: the
keyword-relevance measure of the spec's weighted keyword/TF score. -/
def count_present (kws : List Str) (text : Str) : Nat :=
  (kws.filter fun k => containsSub (lowerL k) (lowerL text)).length


/-- The weighted keyword/TF fallback score of spec §4.1 step 6:
body weight × body relevance + subject weight × subject relevance + urgency
weight if any urgency keyword is present in body or subject. -/
def spec_kw_score (w_body w_subj w_urg : ℚ) (ckws skws ukws : List Str)
    (body subj : Str) : ℚ :=
  w_body * (count_present ckws body : ℚ) + w_subj * (count_present skws subj : ℚ) +
    (if ukws.any (fun k => containsSub (lowerL k) (lowerL body) ||
        containsSub (lowerL k) (lowerL subj)) then w_urg else 0)

/-- The contextual-complaint candidate of spec §4.1 step 5: some complaint
keyword occurs in the body with no negation keyword within `negProx`
characters, and some generic negative word within `negativeProx` characters. -/
def spec_contextual_candidate (ckws negkws negwords : List Str)
    (negProx negativeProx : Nat) (body : Str) : Bool :=
  ckws.any fun k =>
    !(substrPositions (lowerL k) (lowerL body)).isEmpty &&
    !withinProx (substrPositions (lowerL k) (lowerL body))
        ((negkws.map fun n => substrPositions (lowerL n) (lowerL body)).flatten) negProx &&
    withinProx (substrPositions (lowerL k) (lowerL body))
        ((negwords.map fun v => substrPositions (lowerL v) (lowerL body)).flatten) negativeProx

/-- The decision rule exactly as worded in claim C1 and spec §4.1 step 7:
COMPLAINT iff (label NEGATIVE and confidence ≥ sentiment threshold) or
(contextual score ≥ contextual threshold) or (fallback enabled, weighted
keyword/TF score ≥ keyword threshold, and the sentiment signal was
inconclusive or a contextual-complaint candidate was flagged). -/
def spec_decision (sentiment_threshold contextual_score_threshold keyword_threshold
    w_body w_subj w_urg : ℚ) (negProx negativeProx : Nat) (fallback : Bool)
    (ckws skws ukws negkws negwords : List Str)
    (label : Str) (confidence contextual_score : ℚ) (body subj : Str) : Bool :=
  ((label == str "NEGATIVE") && decide (confidence ≥ sentiment_threshold)) ||
  decide (contextual_score ≥ contextual_score_threshold) ||
  (fallback &&
    decide (spec_kw_score w_body w_subj w_urg ckws skws ukws body subj ≥ keyword_threshold) &&
    (!((label == str "NEGATIVE") && decide (confidence ≥ sentiment_threshold)) ||
      spec_contextual_candidate ckws negkws negwords negProx negativeProx body))

/-- The decision rule that `is_complaint` actually implements, as one flat
boolean formula: body and subject must be truthy, and then any of the three
signals suffices, the fallback signal being bare case-insensitive keyword
membership in the cleaned body. -/
def amended_decision (cfg : Config) (complaint_keywords : List Str)
    (sentiment : SentimentCall) (ctxRaw : ℚ)
    (email_body email_subject : Option Str) : Bool :=
  pyTruthy email_body && pyTruthy email_subject &&
    (((((get_sentiment sentiment).2 == str "NEGATIVE") &&
          decide ((get_sentiment sentiment).1 ≥ cfg.sentiment_threshold)) ||
        decide ((if cfg.contextual_check.use_contextual_check then ctxRaw else 0) ≥
          cfg.contextual_check.contextual_score_threshold)) ||
      (cfg.fallback &&
        (complaint_keywords.any fun kw =>
          containsSub (lowerL kw) (lowerL (clean_email (email_body.getD []))))))

/-- A two-branch boolean if-chain collapses to a disjunction. -/
theorem ite_chain_eq (a fb k : Bool) :
    (if a then true else if fb then k else false) = (a || fb && k) := by
  cases a <;> cases fb <;> cases k <;> rfl

example : clean_email (str "  Hello   <b>World</b>! ") = str "hello world!" := by decide

example : containsSub (str "problem") (clean_email (str "We have a PROBLEM.")) = true := by
  decide

example :
    is_complaint ⟨1, ⟨false, 10⟩, true, [], [], false⟩ [str "problem"]
      (.ok 0 (str "NEUTRAL")) 0 (some (str "we have a problem")) (some (str "hello")) =
    true := by decide

example :
    is_complaint ⟨1, ⟨false, 10⟩, false, [str "problem"], [], false⟩ [str "problem"]
      (.ok 2 (str "NEGATIVE")) 0 (some (str "we have a problem")) (some []) =
    false := by decide

example :
    is_complaint ⟨1, ⟨false, 10⟩, false, [], [], false⟩ [str "problem"]
      (.ok 2 (str "NEGATIVE")) 0 (some (str "we have a problem")) (some (str "hi")) =
    true := by decide

/-- Claim C1, counterexample: the claim's decision rule (spec §4.1 step 7) and
`is_complaint` disagree.  With the fallback enabled, a complaint keyword in the
body, an inconclusive sentiment, and a huge keyword threshold, the spec rule
says not-COMPLAINT (the weighted keyword/TF score 3/10 is far below the
threshold 1000) while `is_complaint` returns COMPLAINT by bare keyword
membership. -/
theorem c1_decision_rule_counterexample :
    is_complaint ⟨1, ⟨false, 10⟩, true, [], [], false⟩ [str "problem"]
        (.ok 0 (str "NEUTRAL")) 0 (some (str "we have a problem"))
        (some (str "hello")) = true ∧
    spec_decision 1 10 1000 1 1 1 15 15 true
        [str "problem"] [] [] [] []
        (str "NEUTRAL") 0 0 (str "we have a problem") (str "hello") = false := by
  constructor
  · decide
  · have hs : spec_kw_score 1 1 1 [str "problem"] [] []
        (str "we have a problem") (str "hello") = 1 := by
      unfold spec_kw_score
      rw [show count_present [str "problem"] (str "we have a problem") = 1 from by decide,
        show count_present [] (str "hello") = 0 from rfl]
      norm_num
    unfold spec_decision
    rw [hs]
    decide

/-- Claim C1, amended: `is_complaint` returns COMPLAINT exactly when body and
subject are nonempty and ((sentiment label is NEGATIVE with confidence ≥
sentiment_threshold) or (the effective contextual score — 0 when the contextual
check is disabled — is ≥ contextual_score_threshold) or (the fallback is
enabled and some complaint keyword occurs case-insensitively as a substring of
the cleaned body)); there is no keyword threshold, no weighting, and no gating
of the fallback on an inconclusive-sentiment or contextual-candidate test. -/
theorem is_complaint_eq_amended_decision (cfg : Config) (complaint_keywords : List Str)
    (sentiment : SentimentCall) (ctxRaw : ℚ) (email_body email_subject : Option Str) :
    is_complaint cfg complaint_keywords sentiment ctxRaw email_body email_subject =
      amended_decision cfg complaint_keywords sentiment ctxRaw email_body email_subject := by
  unfold is_complaint amended_decision
  cases pyTruthy email_body <;> cases pyTruthy email_subject <;>
    simp only [Bool.not_true, Bool.not_false, Bool.true_or, Bool.or_true, Bool.or_false,
      Bool.false_or, Bool.true_and, Bool.false_and, ite_chain_eq] <;> rfl

/-- Claim C2 (code bug): in the body "I am not satisfied with nothing" the
complaint keyword "satisfied" (offset 9) is followed within 15 characters by
an occurrence of the negation keyword "not" (offset 24, inside "nothing"), yet
`is_complaint` returns COMPLAINT from the keyword fallback alone — the
classifier never consults negation keywords. -/
theorem c2_negated_keyword_still_complaint :
    followsWithin
        (substrPositions (str "satisfied") (lowerL (str "I am not satisfied with nothing")))
        (substrPositions (str "not") (lowerL (str "I am not satisfied with nothing")))
        15 = true ∧
    is_complaint ⟨1, ⟨false, 10⟩, true, [], [], false⟩ [str "satisfied"] .err 0
        (some (str "I am not satisfied with nothing")) (some (str "order status")) = true := by
  constructor <;> decide

/-- Claim C6, counterexample: the sentiment capability raises and the fallback
is disabled, yet `is_complaint` returns true, because the contextual check is
enabled and the contextual score 5 clears its threshold 1.  The claim's
conclusion ("not a complaint") therefore does not hold for every subject and
body unconditionally. -/
theorem c6_sentiment_error_counterexample :
    is_complaint ⟨1, ⟨true, 1⟩, false, [], [], false⟩ [] .err 5
      (some (str "thank you for the quick delivery")) (some (str "thanks")) = true := by
  decide

/-- Claim C6, amended: if the sentiment capability call raises, the fallback is
disabled, and additionally the effective contextual score (0 when the
contextual check is disabled) is below its threshold, then `is_complaint`
returns false. -/
theorem sentiment_error_no_fallback_not_complaint (cfg : Config)
    (complaint_keywords : List Str) (ctxRaw : ℚ) (email_body email_subject : Option Str)
    (hctx : (if cfg.contextual_check.use_contextual_check then ctxRaw else 0) <
      cfg.contextual_check.contextual_score_threshold)
    (hfb : cfg.fallback = false) :
    is_complaint cfg complaint_keywords .err ctxRaw email_body email_subject = false := by
  have h2 : decide ((if cfg.contextual_check.use_contextual_check then ctxRaw else 0) ≥
      cfg.contextual_check.contextual_score_threshold) = false := by
    simp only [decide_eq_false_iff_not, not_le]
    exact hctx
  unfold is_complaint
  rw [hfb, h2, show ((get_sentiment SentimentCall.err).2 == str "NEGATIVE") = false from by
    decide]
  simp

/-- Witness for the amended claim C6 at a concrete input. -/
theorem sentiment_error_no_fallback_witness :
    ((if (⟨1, ⟨false, 1⟩, false, [], [], false⟩ : Config).contextual_check.use_contextual_check
        then (7 : ℚ) else 0) <
      (⟨1, ⟨false, 1⟩, false, [], [], false⟩ :
        Config).contextual_check.contextual_score_threshold) ∧
    is_complaint ⟨1, ⟨false, 1⟩, false, [], [], false⟩ [str "problem"] .err 7
      (some (str "we have a problem")) (some (str "hi"))= false :=
  ⟨by decide, sentiment_error_no_fallback_not_complaint _ _ _ _ _ (by decide) rfl⟩

/-- Claim C9: when the email body or subject is missing (None) or empty,
`is_complaint` returns false regardless of keywords, sentiment outcome,
contextual score, or fallback configuration. -/
theorem missing_body_or_subject_not_complaint (cfg : Config) (kws : List Str)
    (sentiment : SentimentCall) (ctxRaw : ℚ) (email_body email_subject : Option Str)
    (h : pyTruthy email_body = false ∨ pyTruthy email_subject = false) :
    is_complaint cfg kws sentiment ctxRaw email_body email_subject = false := by
  unfold is_complaint
  rcases h with h | h <;> rw [h] <;> simp

/-- Witness for claim C9: an empty subject forces a non-complaint even though
the body matches a complaint keyword, the sentiment is strongly NEGATIVE, the
contextual score clears its threshold, and the fallback is enabled. -/
theorem missing_body_or_subject_witness :
    pyTruthy (some []) = false ∧
    is_complaint ⟨0, ⟨true, 0⟩, true, [], [], false⟩ [str "bad"] (.ok 5 (str "NEGATIVE")) 5
      (some (str "bad")) (some []) = false :=
  ⟨by decide, missing_body_or_subject_not_complaint _ _ _ _ _ _ (Or.inr (by decide))⟩

/-! ### ComplaintProcessor.process_email (src/complaint_processor.py lines 162-195) -/

/-- The fields of a provider message that `process_email` reads.  `subject`
and `sender` are `none` when the corresponding (nested) key is absent, in
which case the source substitutes "No Subject" / "No Sender". -/
structure Message where
  subject : Option Str
  sender : Option Str
  body : Str
  msg_id : Str

/-- Observable actions of one `process_email` call, in order. -/
inductive PEvent where
  | excluded_sender
  | excluded_subject
  | classified
  | forwarded
  | forward_failed
  | deleted
  | delete_failed
deriving DecidableEq

/-- `process_email`: the regular-expression matcher `re.match` of the external
`re` library enters as the parameter `reMatch` (pattern, text ↦ match at the
start of text), the sentiment and contextual capability outcomes as in
`is_complaint`, and the outcomes of the two provider calls (forwarding the
complaint, deleting the original) as booleans; both provider failures are
caught inside `process_email` in the source.  Returns the ordered trace of
observable actions; `.classified` marks the invocation of the Classification
Engine (`is_complaint`). -/
def process_email (cfg : Config) (complaint_keywords : List Str)
    (reMatch : Str → Str → Bool) (sentiment : SentimentCall) (ctxRaw : ℚ)
    (sendOk deleteOk : Bool) (message : Message) : List PEvent :=
  let subject := message.subject.getD (str "No Subject")
  let sender := message.sender.getD (str "No Sender")
  let body_content := message.body
  if cfg.exclusions_from.any (fun v => reMatch v sender) then [.excluded_sender]
  else if cfg.exclusions_subject.any (fun v => reMatch v subject) then [.excluded_subject]
  else
    .classified ::
      (if is_complaint cfg complaint_keywords sentiment ctxRaw (some body_content)
          (some subject) then
        (if sendOk then
          .forwarded ::
            (if cfg.delete_original then
              (if deleteOk then [.deleted] else [.delete_failed])
             else [])
         else [.forward_failed])
       else [])

/-- Claim C5: a message whose sender matches a configured sender-exclusion
pattern is dismissed with only the exclusion event: the Classification Engine
is never invoked and the message is never forwarded, regardless of subject or
body. -/
theorem excluded_sender_never_classified (cfg : Config) (complaint_keywords : List Str)
    (reMatch : Str → Str → Bool) (sentiment : SentimentCall) (ctxRaw : ℚ)
    (sendOk deleteOk : Bool) (message : Message)
    (h : ∃ v ∈ cfg.exclusions_from,
      reMatch v (message.sender.getD (str "No Sender")) = true) :
    process_email cfg complaint_keywords reMatch sentiment ctxRaw sendOk deleteOk message =
      [PEvent.excluded_sender] ∧
    PEvent.classified ∉
      process_email cfg complaint_keywords reMatch sentiment ctxRaw sendOk deleteOk message ∧
    PEvent.forwarded ∉
      process_email cfg complaint_keywords reMatch sentiment ctxRaw sendOk deleteOk message := by
  have hc : (cfg.exclusions_from.any fun v =>
      reMatch v (message.sender.getD (str "No Sender"))) = true := by
    obtain ⟨v, hv, hm⟩ := h
    exact List.any_eq_true.mpr ⟨v, hv, hm⟩
  refine ⟨?_, ?_, ?_⟩ <;> simp [process_email, hc]

/-- Witness for claim C5: a .gov sender matching the exclusion pattern is
excluded even though every classification signal would fire on the body. -/
theorem excluded_sender_witness :
    (∃ v ∈ [str "noreply@agency.gov"],
      isPrefixL v ((some (str "noreply@agency.gov")).getD (str "No Sender")) = true) ∧
    process_email ⟨0, ⟨true, 0⟩, true, [str "noreply@agency.gov"], [], true⟩ [str "bad"]
      isPrefixL (.ok 5 (str "NEGATIVE")) 5 true true
      ⟨some (str "urgent complaint"), some (str "noreply@agency.gov"),
        str "this is bad", str "m1"⟩ = [PEvent.excluded_sender] :=
  ⟨by decide,
    (excluded_sender_never_classified _ _ _ _ _ _ _ _ (by decide)).1⟩

/-! ### Mailbox sync loop

One cycle of `main_email_loop` (src/main.py lines 111-162) together with the
result contract of `EmailClient.get_emails` (src/email_client.py lines
160-180): load the delta-token store, fetch, process each returned message in
order, and persist the new delta token.  The whole cycle body sits in a single
`try` block whose handlers log and fall through to the sleep, so an exception
escaping `process_email` for one message abandons the rest of the cycle but
not the loop. -/

/-- Whether processing one message completes, or raises an exception that
escapes `process_email` (for example a missing `body` key, or a failure inside
the contextual-embedding call, neither of which is caught per message). -/
inductive POutcome where
  | ok
  | exn
deriving DecidableEq

/-- One message of a fetched batch together with its processing outcome. -/
structure BatchMsg where
  msg_id : Str
  outcome : POutcome
deriving DecidableEq

/-- Run `process_email` over a batch in provider order: the ids of messages
processed to completion, and whether an exception escaped (aborting the rest
of the batch). -/
def run_batch : List BatchMsg → List Str × Bool
  | [] => ([], false)
  | m :: rest =>
    match m.outcome with
    | .ok => (m.msg_id :: (run_batch rest).1, (run_batch rest).2)
    | .exn => ([], true)

/-- Outcome of the `EmailClient.get_emails` call of one cycle: a normal return
(messages and optional new delta token), a `RequestException` caught inside
`get_emails` (which then returns `([], None)`), or an exception that escapes
`get_emails` and is caught by the cycle-level handler. -/
inductive FetchOutcome where
  | ok (emails : List BatchMsg) (newTok : Option Str)
  | reqError
  | exn

/-- The value `get_emails` hands back to the loop, `none` when the exception
propagates. -/
def get_emails_result : FetchOutcome → Option (List BatchMsg × Option Str)
  | .ok emails newTok => some (emails, newTok)
  | .reqError => some ([], none)
  | .exn => none

/-- Observable actions of one sync cycle, in order. -/
inductive SEvent where
  | processed (msg_id : Str)
  | persist (tok : Str)
deriving DecidableEq

/-- Python dict assignment `delta_tokens[mailbox] = tok` on an association
list. -/
def setTok : List (Str × Str) → Str → Str → List (Str × Str)
  | [], k, v => [(k, v)]
  | (k2, v2) :: rest, k, v =>
    if k2 == k then (k, v) :: rest else (k2, v2) :: setTok rest k v

/-- One cycle of `main_email_loop` for one mailbox: the ordered event trace
and the resulting persisted delta-token store.  `saveOk` is the outcome of
`save_delta_tokens` (its failure is caught and logged in the source, leaving
the store unchanged); the `persist` event marks the attempt, which the source
makes only after the message loop and only when the new token is truthy. -/
def sync_cycle (store : List (Str × Str)) (mailbox : Str) (fetch : FetchOutcome)
    (saveOk : Bool) : List SEvent × List (Str × Str) :=
  match get_emails_result fetch with
  | none => ([], store)
  | some (emails, newTok) =>
    if (run_batch emails).2 then ((run_batch emails).1.map SEvent.processed, store)
    else if pyTruthy newTok then
      ((run_batch emails).1.map SEvent.processed ++ [SEvent.persist (newTok.getD [])],
       if saveOk then setTok store mailbox (newTok.getD []) else store)
    else ((run_batch emails).1.map SEvent.processed, store)

/-- A batch whose messages all process to completion yields exactly the batch
ids in order, with no escaping exception. -/
theorem run_batch_all_ok (emails : List BatchMsg)
    (h : ∀ m ∈ emails, m.outcome = POutcome.ok) :
    run_batch emails = (emails.map fun m => m.msg_id, false) := by
  induction emails with
  | nil => rfl
  | cons m rest ih =>
    have hm : m.outcome = POutcome.ok := h m (by simp)
    have ih2 := ih fun x hx => h x (by simp [hx])
    simp [run_batch, hm, ih2]

/-- Processing stops at the first message whose processing raises: only the
ids before it complete, and the exception escapes the batch loop. -/
theorem run_batch_stops_at_exn (pre : List BatchMsg) (bad : BatchMsg) (post : List BatchMsg)
    (hpre : ∀ m ∈ pre, m.outcome = POutcome.ok) (hbad : bad.outcome = POutcome.exn) :
    run_batch (pre ++ bad :: post) = (pre.map fun m => m.msg_id, true) := by
  induction pre with
  | nil => simp [run_batch, hbad]
  | cons m rest ih =>
    have hm : m.outcome = POutcome.ok := hpre m (by simp)
    have ih2 := ih fun x hx => hpre x (by simp [hx])
    simp [run_batch, hm, ih2]

/-- Claim C3, counterexample: the fetch succeeds and yields a new cursor, but
the single message of the batch raises while being processed, so the cycle is
abandoned by the cycle-level handler: the new cursor is never persisted (zero
persist attempts, store unchanged), not "persisted exactly once". -/
theorem c3_fetch_success_without_persist :
    sync_cycle [(str "mb", str "old")] (str "mb")
      (.ok [⟨str "m1", .exn⟩] (some (str "new"))) true =
    ([], [(str "mb", str "old")]) := by decide

/-- Claim C3, amended: a fetch failure (caught inside `get_emails` or escaping
it) leaves the persisted store unchanged with no persist attempt; a successful
fetch yielding a truthy new cursor, all of whose messages process without an
escaping exception, attempts to persist the new cursor exactly once, after all
the batch's messages have been processed, and the store holds the new cursor
when the save succeeds (a save failure is caught and leaves the store
unchanged). -/
theorem cursor_safety_per_cycle (store : List (Str × Str)) (mailbox : Str) (saveOk : Bool) :
    sync_cycle store mailbox .reqError saveOk = ([], store) ∧
    sync_cycle store mailbox .exn saveOk = ([], store) ∧
    (∀ emails t, (∀ m ∈ emails, m.outcome = POutcome.ok) → pyTruthy (some t) = true →
      sync_cycle store mailbox (.ok emails (some t)) saveOk =
        ((emails.map fun m => SEvent.processed m.msg_id) ++ [SEvent.persist t],
         if saveOk then setTok store mailbox t else store)) := by
  refine ⟨rfl, rfl, ?_⟩
  intro emails t h ht
  simp [sync_cycle, get_emails_result, run_batch_all_ok emails h, ht]

/-- Witness for the amended claim C3 at a concrete cycle. -/
theorem cursor_safety_witness :
    (∀ m ∈ [(⟨str "m1", POutcome.ok⟩ : BatchMsg)], m.outcome = POutcome.ok) ∧
    pyTruthy (some (str "new")) = true ∧
    sync_cycle [(str "mb", str "old")] (str "mb")
      (.ok [⟨str "m1", .ok⟩] (some (str "new"))) true =
      ([SEvent.processed (str "m1"), SEvent.persist (str "new")],
       [(str "mb", str "new")]) :=
  ⟨by decide, by decide,
    ((cursor_safety_per_cycle [(str "mb", str "old")] (str "mb") true).2.2
      [⟨str "m1", POutcome.ok⟩] (str "new") (by decide) (by decide)).trans (by decide)⟩

/-- Claim C4, counterexample: the second message of a three-message batch
raises while being processed; the failure is caught only by the cycle-level
handler, so the third message is never processed and the new cursor is not
persisted — the failure does abort the remaining messages of the batch. -/
theorem c4_message_failure_aborts_batch :
    sync_cycle [(str "mb", str "old")] (str "mb")
      (.ok [⟨str "m1", .ok⟩, ⟨str "m2", .exn⟩, ⟨str "m3", .ok⟩] (some (str "new"))) true =
    ([SEvent.processed (str "m1")], [(str "mb", str "old")]) := by decide

/-- Claim C4, amended: a failure raised while processing one message is caught
at the cycle level (the cycle returns normally and the loop continues), but it
aborts the processing of the remaining messages of the batch and skips cursor
persistence for that cycle, leaving the old cursor so the batch is retried
next cycle. -/
theorem message_failure_caught_at_cycle (store : List (Str × Str)) (mailbox : Str)
    (saveOk : Bool) (pre : List BatchMsg) (bad : BatchMsg) (post : List BatchMsg)
    (newTok : Option Str)
    (hpre : ∀ m ∈ pre, m.outcome = POutcome.ok) (hbad : bad.outcome = POutcome.exn) :
    sync_cycle store mailbox (.ok (pre ++ bad :: post) newTok) saveOk =
      (pre.map fun m => SEvent.processed m.msg_id, store) := by
  simp [sync_cycle, get_emails_result, run_batch_stops_at_exn pre bad post hpre hbad]

/-- Witness for the amended claim C4 at a concrete cycle. -/
theorem message_failure_caught_witness :
    (∀ m ∈ [(⟨str "m1", POutcome.ok⟩ : BatchMsg)], m.outcome = POutcome.ok) ∧
    (⟨str "m2", POutcome.exn⟩ : BatchMsg).outcome = POutcome.exn ∧
    sync_cycle [(str "mb", str "old")] (str "mb")
      (.ok [⟨str "m1", .ok⟩, ⟨str "m2", .exn⟩, ⟨str "m4", .ok⟩] (some (str "new2"))) true =
      ([SEvent.processed (str "m1")], [(str "mb", str "old")]) :=
  ⟨by decide, by decide,
    (message_failure_caught_at_cycle [(str "mb", str "old")] (str "mb") true
      [⟨str "m1", POutcome.ok⟩] ⟨str "m2", POutcome.exn⟩ [⟨str "m4", POutcome.ok⟩]
      (some (str "new2")) (by decide) (by decide)).trans (by decide)⟩

/-! ### EmailClient.get_emails (src/email_client.py lines 110-180)

The query construction and the pagination loop.  `urllib.parse.quote` enters
as the parameter `quoteFn` and `datetime.fromisoformat` (composed with the
source's Z-replacement and re-serialisation via `.isoformat()`) as `parseIso`,
both being external collaborators; `parseIso` returns `none` when the parse
raises `ValueError`, in which case the source logs and skips that filter
part. -/

/-- The `email_filter` dictionary: a field is `none` when the key is absent;
a present-but-empty value is falsy and also skipped by the source. -/
structure EmailFilter where
  from_domain : Option Str
  start_date : Option Str
  subject_contains : Option Str

/-- The single-quote character used in OData filter literals. -/
def sq : Str := [Char.ofNat 39]

/-- `_build_filter_query` (lines 110-125): assemble the `$filter` value from
the present, truthy filter criteria, joined by " and "; empty when none
apply. -/
def build_filter_query (parseIso : Str → Option Str) (email_filter : Option EmailFilter) :
    Str :=
  match email_filter with
  | none => []
  | some f =>
    let p1 : List Str := match f.from_domain with
      | some v =>
        if v.isEmpty then [] else [str "from/emailAddress/address eq " ++ sq ++ v ++ sq]
      | none => []
    let p2 : List Str := match f.start_date with
      | some v =>
        if v.isEmpty then []
        else
          match parseIso v with
          | some d => [str "receivedDateTime ge " ++ d]
          | none => []
      | none => []
    let p3 : List Str := match f.subject_contains with
      | some v =>
        if v.isEmpty then []
        else [str "contains(subject," ++ sq ++ v ++ sq ++ str ")"]
      | none => []
    List.intercalate (str " and ") (p1 ++ p2 ++ p3)

/-- The query parameters of the initial request of `get_emails`
(lines 144-158): a truthy delta token yields only `$deltaToken`; otherwise
`$select`, `$top` and, when the built filter is nonempty, `$filter`. -/
def build_query (quoteFn : Str → Str) (top : Nat) (parseIso : Str → Option Str)
    (delta_token : Option Str) (email_filter : Option EmailFilter) : List (Str × Str) :=
  if pyTruthy delta_token then
    [(str "$deltaToken", quoteFn (delta_token.getD []))]
  else
    [(str "$select", str "sender,subject,body,toRecipients,from,id,receivedDateTime"),
     (str "$top", str (toString top))] ++
      (if (build_filter_query parseIso email_filter).isEmpty then []
       else [(str "$filter", build_filter_query parseIso email_filter)])

/-- One provider response page: message payloads (opaque here), the
`@odata.nextLink` and the `@odata.deltaLink`. -/
structure Page where
  value : List Str
  nextLink : Option Str
  deltaLink : Option Str
deriving DecidableEq

/-- The pagination loop of `get_emails` (lines 160-171): consume the first
response, then, while a nextLink is present, the response to the next request,
accumulating all message payloads and remembering the most recent page's
deltaLink. -/
def page_walk : List Page → List Str × Option Str
  | [] => ([], none)
  | [p] => (p.value, p.deltaLink)
  | p :: q :: rest =>
    match p.nextLink with
    | none => (p.value, p.deltaLink)
    | some _ => (p.value ++ (page_walk (q :: rest)).1, (page_walk (q :: rest)).2)

/-- Python `delta_link.split("=")` on the character `=`. -/
def splitEq : Str → List Str
  | [] => [[]]
  | c :: rest =>
    if c == '=' then [] :: splitEq rest
    else
      match splitEq rest with
      | s :: ss => (c :: s) :: ss
      | [] => [[c]]

/-- `delta_link.split("=")[-1]`, the token extracted from the delta link
(line 175). -/
def lastSegment (s : Str) : Str := (splitEq s).getLastD []

/-- Outcome of the network interaction of one `get_emails` call: the sequence
of responses the provider returns (initial request first, then the responses
to successive nextLink requests), or a `RequestException` from some request,
which `get_emails` catches, returning `([], None)`. -/
inductive Network where
  | pages (responses : List Page)
  | reqError

/-- `get_emails` (lines 127-180): the query parameters built for the initial
request, and the returned pair (emails, final delta token). -/
def get_emails (quoteFn : Str → Str) (top : Nat) (parseIso : Str → Option Str)
    (delta_token : Option Str) (email_filter : Option EmailFilter) (net : Network) :
    List (Str × Str) × (List Str × Option Str) :=
  (build_query quoteFn top parseIso delta_token email_filter,
    match net with
    | .reqError => ([], none)
    | .pages responses =>
      ((page_walk responses).1, ((page_walk responses).2).map lastSegment))

/-- Walking a response sequence whose every page but the last carries a
nextLink and whose last page carries none returns every page's messages in
order and the last page's deltaLink. -/
theorem page_walk_exhausts (ps : List Page) (plast : Page)
    (hps : ∀ p ∈ ps, p.nextLink.isSome = true) (_hlast : plast.nextLink = none) :
    page_walk (ps ++ [plast]) =
      (((ps ++ [plast]).map Page.value).flatten, plast.deltaLink) := by
  induction ps with
  | nil => simp [page_walk]
  | cons p ps ih =>
    have ih2 := ih fun x hx => hps x (by simp [hx])
    obtain ⟨l, hl⟩ := Option.isSome_iff_exists.mp (hps p (by simp))
    rcases hsplit : ps ++ [plast] with _ | ⟨q, rest2⟩
    · simp at hsplit
    · rw [hsplit] at ih2
      rw [List.cons_append, hsplit]
      simp only [page_walk, hl]
      rw [ih2]
      simp [hsplit]

/-- Claim C7: a (truthy) delta token yields a request with only the delta
token and none of the configured filters; without a delta token the configured
filters are applied ($select, $top, and the $filter built from the configured
criteria whenever it is nonempty); and pagination links are followed until
exhausted before returning, every page's messages being returned in order with
the delta link taken from the final page. -/
theorem get_emails_query_and_pagination (quoteFn : Str → Str) (top : Nat)
    (parseIso : Str → Option Str) (email_filter : Option EmailFilter) :
    (∀ t, pyTruthy (some t) = true →
      build_query quoteFn top parseIso (some t) email_filter =
        [(str "$deltaToken", quoteFn t)]) ∧
    (build_query quoteFn top parseIso none email_filter =
      [(str "$select", str "sender,subject,body,toRecipients,from,id,receivedDateTime"),
       (str "$top", str (toString top))] ++
        (if (build_filter_query parseIso email_filter).isEmpty then []
         else [(str "$filter", build_filter_query parseIso email_filter)])) ∧
    (∀ (ps : List Page) (plast : Page), (∀ p ∈ ps, p.nextLink.isSome = true) →
      plast.nextLink = none →
      page_walk (ps ++ [plast]) =
        (((ps ++ [plast]).map Page.value).flatten, plast.deltaLink)) := by
  refine ⟨?_, ?_, fun ps plast hps hlast => page_walk_exhausts ps plast hps hlast⟩
  · intro t ht
    simp [build_query, ht]
  · simp [build_query, pyTruthy]

/-- Witness for claim C7: a concrete delta-token request carries only the
token even though a from-domain filter is configured, and a concrete two-page
walk returns both pages' messages with the second page's delta link. -/
theorem get_emails_query_witness :
    pyTruthy (some (str "tok123")) = true ∧
    (∀ p ∈ [(⟨[str "m1"], some (str "next1"), none⟩ : Page)], p.nextLink.isSome = true) ∧
    (⟨[str "m2"], none, some (str "mail?deltatoken=abc")⟩ : Page).nextLink = none ∧
    build_query (fun s => s) 50 (fun _ => none) (some (str "tok123"))
      (some ⟨some (str "example.com"), none, none⟩) =
      [(str "$deltaToken", str "tok123")] ∧
    page_walk [⟨[str "m1"], some (str "next1"), none⟩,
        ⟨[str "m2"], none, some (str "mail?deltatoken=abc")⟩] =
      ([str "m1", str "m2"], some (str "mail?deltatoken=abc")) :=
  ⟨by decide, by decide, by decide,
    (get_emails_query_and_pagination (fun s => s) 50 (fun _ => none)
      (some ⟨some (str "example.com"), none, none⟩)).1 (str "tok123") (by decide),
    ((get_emails_query_and_pagination (fun s => s) 50 (fun _ => none)
      (some ⟨some (str "example.com"), none, none⟩)).2.2
      [⟨[str "m1"], some (str "next1"), none⟩]
      ⟨[str "m2"], none, some (str "mail?deltatoken=abc")⟩
      (by decide) (by decide)).trans (by decide)⟩

/-! ### utils.parse_interval and the feedback-loop due check
(src/utils.py lines 56-71 and src/main.py lines 29-107) -/

/-- Python `int()` on the ASCII-digit strings appearing here; `none` when the
conversion raises `ValueError` (empty or non-numeric input). -/
def digitsToNat (l : Str) : Option Nat :=
  if l.isEmpty then none
  else if l.all Char.isDigit then
    some (l.foldl (fun acc c => acc * 10 + (c.toNat - 48)) 0)
  else none

/-- `parse_interval` (src/utils.py): last character is the unit, the prefix
the value; seconds in the result.  `none` models the exceptions the code
raises (empty string, bad number, unknown unit), which the feedback loop's
cycle-level handler catches. -/
def parse_interval (s : Str) : Option Nat :=
  match s.getLast? with
  | none => none
  | some u =>
    match digitsToNat s.dropLast with
    | none => none
    | some v =>
      if u == 's' then some v
      else if u == 'm' then some (v * 60)
      else if u == 'h' then some (v * 3600)
      else none

/-- The CHECK_DUE gate of `check_for_feedback` (src/main.py lines 37 and 43):
each cycle recomputes `last_checked := now1 − interval` from a fresh clock
reading and then scans when `now2 − last_checked ≥ interval`, `now1` and
`now2` being the cycle's two successive clock readings.  (The post-scan
assignment `last_checked = time.time()` at line 92 is dead: line 37 overwrites
it at the start of every cycle.)  Returns the gate's value, or `none` when the
interval string fails to parse. -/
def check_due (intervalStr : Str) (now1 now2 : ℚ) : Option Bool :=
  (parse_interval intervalStr).map fun iv =>
    decide (now2 - (now1 - (iv : ℚ)) ≥ (iv : ℚ))

/-- Claim C8 (code bug): with the configured "2m" interval (120 s) and a cycle
arriving only 10 seconds after the previous scan (previous scan at clock 1000,
this cycle's clock readings both 1010), the gate still fires — `last_checked`
is rebuilt as now − interval on every cycle, so under a monotone clock the
scan is never skipped, not only when the elapsed time reaches the interval. -/
theorem c8_due_check_always_fires :
    check_due (str "2m") 1010 1010 = some true := by
  have hp : parse_interval (str "2m") = some 120 := by decide
  unfold check_due
  rw [hp]
  show some (decide ((1010 : ℚ) - (1010 - ((120 : Nat) : ℚ)) ≥ ((120 : Nat) : ℚ))) =
    some true
  exact congrArg some (by rw [decide_eq_true_eq]; norm_num)

/-! ### ComplaintProcessor.__init__ and reload_keywords
(src/complaint_processor.py lines 14-53) -/

/-- Stable insertion by descending string length: the element goes before the
first strictly shorter one, as Python's stable `sorted(key=len, reverse=True)`
places it. -/
def insertByLenDesc (x : Str) : List Str → List Str
  | [] => [x]
  | y :: ys =>
    if decide (x.length < y.length) then y :: insertByLenDesc x ys else x :: y :: ys

/-- Python `sorted(lst, key=len, reverse=True)`. -/
def sortByLenDesc : List Str → List Str
  | [] => []
  | x :: xs => insertByLenDesc x (sortByLenDesc xs)

/-- The attribute state of a `ComplaintProcessor` that `reload_keywords`
touches: `none` models an attribute that has never been assigned, so that
reading it raises `AttributeError`. -/
structure CPState where
  complaint_keywords : Option (List Str)
  embeddings_generated : Bool
deriving DecidableEq

/-- `reload_keywords` (lines 44-53): sort the freshly loaded keyword list and
compare it against `self.complaint_keywords`; reading that attribute on a
state where it was never assigned raises (modelled as `.error`).  On a change,
store the new list and regenerate the embeddings. -/
def reload_keywords (loaded : List Str) (s : CPState) : Except Str CPState :=
  match s.complaint_keywords with
  | none => .error (str "AttributeError")
  | some old =>
    if sortByLenDesc loaded ≠ old then .ok ⟨some (sortByLenDesc loaded), true⟩ else .ok s

/-- `__init__` (lines 14-22): assigns `email_client`, `config`,
`sentiment_classifier`, `tokenizer` and `model`, runs
`reload_sentiment_pipeline` (which assigns only `sentiment_classifier`), and
then calls `reload_keywords` on a state where `complaint_keywords` has never
been assigned. -/
def init_ComplaintProcessor (loaded : List Str) : Except Str CPState :=
  reload_keywords loaded ⟨none, false⟩

/-- Claim C10 (code bug): the first `reload_keywords` call, made during
`__init__`, reads `self.complaint_keywords` before any assignment to it, so
constructing a `ComplaintProcessor` raises `AttributeError` whatever keyword
list the loader returns. -/
theorem c10_init_always_raises (loaded : List Str) :
    init_ComplaintProcessor loaded = .error (str "AttributeError") := rfl

end ComplaintSys
